import Mathlib

/-!
Verification of the feature-flag data model and evaluation/rollout engine
of the feature-flagging-service repository (`src/model/flag.rs`).

The Rust `FeatureFlag` struct and its methods `evaluate`, `hoist`, `lower`
are embedded as pure Lean functions; the `&mut self` methods become
state-passing functions returning the updated flag.
-/

namespace FlagService

/-- Release type of a feature flag (`ReleaseType` in `flag.rs`).
`Percentage` carries an `f32` fraction, modelled as `Float`; the
evaluation logic never reads it. -/
inductive ReleaseType where
  | Global : ReleaseType
  | Limited (allowlist : List String) : ReleaseType
  | Percentage (fraction : Float) (allowlist : List String) : ReleaseType

/-- The `FeatureFlag` struct of `flag.rs`. `ObjectId` is modelled as its
hex string. -/
structure FeatureFlag where
  oid : Option String
  name : String
  product_id : String
  enabled : Bool
  client_toggle : Bool
  disabled_for : List String
  release_type : ReleaseType

/-- Rust `FeatureFlag::default` from `flag.rs`. -/
def FeatureFlag.default : FeatureFlag :=
  { oid := none
    name := "default_flag"
    product_id := "default_product"
    enabled := false
    client_toggle := false
    disabled_for := []
    release_type := ReleaseType.Global }

/-- Rust `FeatureFlag::hoist` from `flag.rs`: with a user id, keeps only the
`disabled_for` entries different from it (`Vec::retain`); with `None`,
sets `enabled` to `true`. -/
def FeatureFlag.hoist (flag : FeatureFlag) (user_id : Option String) : FeatureFlag :=
  match user_id with
  | some u => { flag with disabled_for := flag.disabled_for.filter (fun x => x != u) }
  | none => { flag with enabled := true }

/-- Rust `FeatureFlag::lower` from `flag.rs`: with a user id, pushes it onto
`disabled_for` (`Vec::push`); with `None`, sets `enabled` to `false`. -/
def FeatureFlag.lower (flag : FeatureFlag) (user_id : Option String) : FeatureFlag :=
  match user_id with
  | some u => { flag with disabled_for := flag.disabled_for ++ [u] }
  | none => { flag with enabled := false }

/-- Rust `FeatureFlag::evaluate` from `flag.rs`. The Rust function returns
early with `false` when the flag is globally disabled, then matches on
the release type; branches that fall through the `match` end at the
trailing `false`. -/
def FeatureFlag.evaluate (flag : FeatureFlag) (user_id : Option String) : Bool :=
  if !flag.enabled then
    false
  else
    match flag.release_type with
    | ReleaseType.Global =>
      match user_id with
      | some u =>
        if flag.disabled_for.contains u then false else flag.enabled
      | none => flag.enabled
    | ReleaseType.Limited allowlist =>
      match user_id with
      | some u =>
        if flag.disabled_for.contains u then false
        else if allowlist.contains u then flag.enabled
        else false
      | none => false
    | ReleaseType.Percentage _ allowlist =>
      match user_id with
      | some u =>
        if flag.disabled_for.contains u then false
        else if allowlist.contains u then flag.enabled
        else false
      | none => false

/-- Claim C1: for every flag with `enabled = false` and every user
argument, `evaluate` returns `false`, regardless of the release strategy,
the allow-list, and `disabled_for`. -/
theorem evaluate_false_of_not_enabled (flag : FeatureFlag) (user : Option String)
    (h : flag.enabled = false) : flag.evaluate user = false := by
  simp [FeatureFlag.evaluate, h]

/-- Witness for C1: the default flag is disabled and evaluates to `false`. -/
theorem evaluate_false_of_not_enabled_witness :
    FeatureFlag.default.enabled = false
      ∧ FeatureFlag.default.evaluate (some "u1") = false :=
  ⟨rfl, evaluate_false_of_not_enabled FeatureFlag.default (some "u1") rfl⟩

/-- Claim C2: for every flag with `enabled = true` and every user id in
`disabled_for`, `evaluate` on that user returns `false`, for every release
strategy and even when the user is in the strategy's allow-list. -/
theorem evaluate_false_of_disabled_for (flag : FeatureFlag) (u : String)
    (hen : flag.enabled = true) (hmem : u ∈ flag.disabled_for) :
    flag.evaluate (some u) = false := by
  cases hrt : flag.release_type <;>
    simp [FeatureFlag.evaluate, hen, hrt, hmem]

/-- Witness for C2: a globally enabled limited flag whose allow-list holds
the user still evaluates to `false` when the user is in `disabled_for`. -/
theorem evaluate_false_of_disabled_for_witness :
    ({ FeatureFlag.default with
        enabled := true
        disabled_for := ["u1"]
        release_type := ReleaseType.Limited ["u1"] } : FeatureFlag).enabled = true
      ∧ "u1" ∈ ({ FeatureFlag.default with
          enabled := true
          disabled_for := ["u1"]
          release_type := ReleaseType.Limited ["u1"] } : FeatureFlag).disabled_for
      ∧ ({ FeatureFlag.default with
          enabled := true
          disabled_for := ["u1"]
          release_type := ReleaseType.Limited ["u1"] } : FeatureFlag).evaluate
            (some "u1") = false :=
  ⟨rfl, by decide,
    evaluate_false_of_disabled_for
      { FeatureFlag.default with
        enabled := true
        disabled_for := ["u1"]
        release_type := ReleaseType.Limited ["u1"] } "u1" rfl (by decide)⟩

/-- Claim C3: for every fraction, allow-list, remaining flag state and user
argument, a flag with strategy `Percentage(f, l)` evaluates exactly as the
otherwise-identical flag with strategy `Limited(l)`; the fraction never
influences the result. -/
theorem evaluate_percentage_eq_limited (flag : FeatureFlag) (f : Float)
    (l : List String) (user : Option String) :
    ({ flag with release_type := ReleaseType.Percentage f l } : FeatureFlag).evaluate user
      = ({ flag with release_type := ReleaseType.Limited l } : FeatureFlag).evaluate user :=
  rfl

/-- Claim C4: for every flag with `enabled = true` and strategy
`Limited(l)`: anonymous evaluation returns `false`, and for a user not in
`disabled_for` evaluation returns `true` exactly when the user is in `l`. -/
theorem evaluate_limited_spec (flag : FeatureFlag) (l : List String) (u : String)
    (hrt : flag.release_type = ReleaseType.Limited l) (hen : flag.enabled = true)
    (hd : u ∉ flag.disabled_for) :
    flag.evaluate none = false ∧ (flag.evaluate (some u) = true ↔ u ∈ l) := by
  constructor
  · simp [FeatureFlag.evaluate, hen, hrt]
  · by_cases hl : u ∈ l <;>
      simp [FeatureFlag.evaluate, hen, hrt, hd, hl]

/-- Witness for C4: scenario B, a limited allow-list containing only `u1`. -/
theorem evaluate_limited_spec_witness :
    ({ FeatureFlag.default with
        enabled := true
        release_type := ReleaseType.Limited ["u1"] } : FeatureFlag).evaluate none = false
      ∧ (({ FeatureFlag.default with
          enabled := true
          release_type := ReleaseType.Limited ["u1"] } : FeatureFlag).evaluate
            (some "u2") = true ↔ "u2" ∈ ["u1"]) :=
  evaluate_limited_spec
    { FeatureFlag.default with
      enabled := true
      release_type := ReleaseType.Limited ["u1"] } ["u1"] "u2" rfl rfl (by decide)

/-- Claim C5: for every flag with `enabled = true` and strategy `Global`,
anonymous evaluation returns `true`, and evaluation for any user not in
`disabled_for` returns `true`. -/
theorem evaluate_global_spec (flag : FeatureFlag) (u : String)
    (hrt : flag.release_type = ReleaseType.Global) (hen : flag.enabled = true)
    (hd : u ∉ flag.disabled_for) :
    flag.evaluate none = true ∧ flag.evaluate (some u) = true := by
  constructor <;> simp [FeatureFlag.evaluate, hen, hrt, hd]

/-- Witness for C5: scenario C, a global flag with `u1` opted out still
evaluates to `true` anonymously and for `u2`. -/
theorem evaluate_global_spec_witness :
    ({ FeatureFlag.default with
        enabled := true
        disabled_for := ["u1"] } : FeatureFlag).evaluate none = true
      ∧ ({ FeatureFlag.default with
          enabled := true
          disabled_for := ["u1"] } : FeatureFlag).evaluate (some "u2") = true :=
  evaluate_global_spec
    { FeatureFlag.default with
      enabled := true
      disabled_for := ["u1"] } "u2" rfl rfl (by decide)

/-- Claim C6: `hoist` with no user sets `enabled` to `true`; `hoist` with a
user removes the user from `disabled_for`, leaving `enabled` and the
release strategy (hence its allow-list) unchanged; and when the user is not
in `disabled_for` it is a complete no-op. -/
theorem hoist_spec (flag : FeatureFlag) (u : String) :
    flag.hoist none = { flag with enabled := true }
      ∧ (flag.hoist (some u)).enabled = flag.enabled
      ∧ (flag.hoist (some u)).release_type = flag.release_type
      ∧ u ∉ (flag.hoist (some u)).disabled_for
      ∧ (u ∉ flag.disabled_for → flag.hoist (some u) = flag) := by
  refine ⟨rfl, rfl, rfl, ?_, ?_⟩
  · simp [FeatureFlag.hoist]
  · intro h
    have hfix : flag.disabled_for.filter (fun x => x != u) = flag.disabled_for := by
      refine List.filter_eq_self.mpr fun x hx => ?_
      simp only [bne_iff_ne, ne_eq, decide_eq_true_eq]
      exact fun hxu => h (hxu ▸ hx)
    simp [FeatureFlag.hoist, hfix]

/-- Witness for C6: a flag with `disabled_for = [a]` is untouched by
`hoist` for the absent user `u1`, and `hoist` with no user enables it. -/
theorem hoist_spec_witness :
    ({ FeatureFlag.default with disabled_for := ["a"] } : FeatureFlag).hoist none
        = { ({ FeatureFlag.default with disabled_for := ["a"] } : FeatureFlag) with
            enabled := true }
      ∧ ({ FeatureFlag.default with disabled_for := ["a"] } : FeatureFlag).hoist (some "u1")
        = { FeatureFlag.default with disabled_for := ["a"] } :=
  ⟨(hoist_spec { FeatureFlag.default with disabled_for := ["a"] } "u1").1,
    (hoist_spec { FeatureFlag.default with disabled_for := ["a"] } "u1").2.2.2.2
      (by decide)⟩

/-- Claim C7: `lower` with no user sets `enabled` to `false`; `lower` with
a user appends it to `disabled_for` unconditionally, so repeated calls
accumulate duplicates, and leaves `enabled` unchanged. -/
theorem lower_spec (flag : FeatureFlag) (u : String) :
    flag.lower none = { flag with enabled := false }
      ∧ (flag.lower (some u)).disabled_for = flag.disabled_for ++ [u]
      ∧ (flag.lower (some u)).enabled = flag.enabled
      ∧ ((flag.lower (some u)).lower (some u)).disabled_for.count u
          = flag.disabled_for.count u + 2 := by
  refine ⟨rfl, rfl, rfl, ?_⟩
  simp [FeatureFlag.lower, List.count_append]

/-- Counterexample for C8: with `disabled_for = [u1]` before the round
trip, `u1` was a member of `disabled_for` before `lower`, yet after
`lower(Some u1)` then `hoist(Some u1)` it is no longer a member, so the
round trip does not restore the pre-`lower` membership status. -/
theorem lower_then_hoist_not_restoring :
    "u1" ∈ ({ FeatureFlag.default with disabled_for := ["u1"] } : FeatureFlag).disabled_for
      ∧ "u1" ∉ ((({ FeatureFlag.default with disabled_for := ["u1"] } : FeatureFlag).lower
          (some "u1")).hoist (some "u1")).disabled_for := by
  decide

/-- Claim C8 (amended): `lower(Some u)` then `hoist(Some u)` always yields
a flag in which `u` is absent from `disabled_for`; when `u` was not in
`disabled_for` before the `lower` call, the round trip restores the flag
exactly. -/
theorem lower_then_hoist_spec (flag : FeatureFlag) (u : String) :
    u ∉ ((flag.lower (some u)).hoist (some u)).disabled_for
      ∧ (u ∉ flag.disabled_for → (flag.lower (some u)).hoist (some u) = flag) := by
  constructor
  · simp [FeatureFlag.lower, FeatureFlag.hoist]
  · intro h
    have hfix : (flag.disabled_for ++ [u]).filter (fun x => x != u)
        = flag.disabled_for := by
      rw [List.filter_append]
      have h2 : ([u].filter (fun x => x != u)) = ([] : List String) := by simp
      rw [h2, List.append_nil]
      refine List.filter_eq_self.mpr fun x hx => ?_
      simp only [bne_iff_ne, ne_eq, decide_eq_true_eq]
      exact fun hxu => h (hxu ▸ hx)
    simp [FeatureFlag.lower, FeatureFlag.hoist, hfix]

/-- Witness for C8 (amended): the round trip on the default flag (empty
`disabled_for`) leaves `u1` absent and restores the flag exactly. -/
theorem lower_then_hoist_spec_witness :
    "u1" ∉ ((FeatureFlag.default.lower (some "u1")).hoist (some "u1")).disabled_for
      ∧ (FeatureFlag.default.lower (some "u1")).hoist (some "u1")
          = FeatureFlag.default :=
  ⟨(lower_then_hoist_spec FeatureFlag.default "u1").1,
    (lower_then_hoist_spec FeatureFlag.default "u1").2 (by decide)⟩

/-- Claim C9: the `client_toggle` field has no influence on any evaluation
outcome; flipping it on an otherwise-identical flag never changes the
result of `evaluate`. -/
theorem evaluate_ignores_client_toggle (flag : FeatureFlag) (b : Bool)
    (user : Option String) :
    ({ flag with client_toggle := b } : FeatureFlag).evaluate user
      = flag.evaluate user :=
  rfl

/-- Claim C10: after `hoist(Some u)` the user `u` occurs nowhere in
`disabled_for`, whatever was there before — including duplicates
accumulated by repeated `lower(Some u)` calls. -/
theorem hoist_removes_every_occurrence (flag : FeatureFlag) (u : String) :
    u ∉ (flag.hoist (some u)).disabled_for := by
  simp [FeatureFlag.hoist]

end FlagService
